import Mathlib

/-!
Verification of the Genesis on-device assistant orchestrator.

Shallow embedding of the Python sources in `src/`:
  * `uncertainty_detector.py` (UncertaintyDetector),
  * `feedback_manager.py`    (FeedbackManager),
  * `math_reasoner.py`       (MathReasoner solvers),
  * `reasoning.py`           (ReasoningEngine: question boundaries, classifier
                              metadata, temporal analysis),
  * `genesis.py`             (the `process_input` pipeline fragment that decides
                              the calculated-answer short-circuit and the
                              fallback cascade),
  * `websearch.py`           (WebSearch cache and synthesis),
  * `learning_memory.py`     (LearningMemory auto-pruning),
  * `genesis_bridge.py`      (GenesisBridge request handler).

Conventions of the embedding:
  * Python floats are modelled as exact rationals (`ℚ`).  Where the Python code
    would raise `ZeroDivisionError` the Lean definition carries a doc comment
    saying so; no claim below exercises such an input.
  * Python regex-driven subcomputations (the uncertainty phrase matcher, the
    error-indicator and code-block scanners, the solver's pattern dispatch,
    `detect_problem_type`) are passed to the embedded functions as explicit
    arguments standing for the regex engine's result on the given text; the
    logic applied to those results is translated faithfully.
  * Python `str` rendering of numbers is abstracted by `ratStr` / `dollarStr`
    (both provably non-empty, which is the only property the pipeline uses:
    Python's `if calculated_answer:` truthiness test).
  * Dictionaries with a fixed key set become structures; `dict.get(k) or
    dict.get(k2)` becomes `pyOrQ` which models Python `or` truthiness
    (`0` and `None` are falsy).
-/

namespace Genesis

/-- Python `needle in haystack` on lists of characters: `p` occurs as a
contiguous sublist of `h`. -/
def subOccurs (p : List Char) : List Char → Bool
  | [] => p.isEmpty
  | c :: rest => (p.isPrefixOf (c :: rest)) || subOccurs p rest

/-- Python `needle in haystack` for strings (substring containment). -/
def pyIn (needle hay : String) : Bool :=
  subOccurs needle.toList hay.toList

/-- Python `str.lower` (character-wise; the texts involved are ASCII). -/
def lowerStr (s : String) : String :=
  String.mk (s.data.map Char.toLower)

/-- Drops leading whitespace characters. -/
def dropWs : List Char → List Char
  | [] => []
  | c :: rest => if c.isWhitespace then dropWs rest else c :: rest

/-- Python `str.strip()`: remove leading and trailing whitespace. -/
def pyStrip (s : String) : String :=
  String.mk ((dropWs ((dropWs s.data).reverse)).reverse)

/-- Worker for `pyWords`, accumulating the current word reversed. -/
def splitWsGo (cur : List Char) : List Char → List (List Char)
  | [] => if cur.isEmpty then [] else [cur.reverse]
  | c :: rest =>
    if c.isWhitespace then
      if cur.isEmpty then splitWsGo [] rest
      else cur.reverse :: splitWsGo [] rest
    else splitWsGo (c :: cur) rest

/-- Python `text.split()` with no argument: split on whitespace runs,
dropping empty fragments. -/
def pyWords (text : String) : List (List Char) :=
  splitWsGo [] text.data

/-- Association-list lookup (Python `dict[key]` / `key in dict`). -/
def assocLookup {α : Type} : List (String × α) → String → Option α
  | [], _ => none
  | p :: rest, k => if p.1 = k then some p.2 else assocLookup rest k

/-- Python truthiness of an optional number: `None` and `0` are falsy. -/
def truthyQ : Option ℚ → Bool
  | none => false
  | some q => q ≠ 0

/-- Python truthiness of an optional string: `None` and `""` are falsy. -/
def truthyStr : Option String → Bool
  | none => false
  | some s => s ≠ ""

/-- Python `a or b` on optional numbers: `a` if truthy, else `b`. -/
def pyOrQ (a b : Option ℚ) : Option ℚ :=
  if truthyQ a then a else b

/-- Big-endian decimal digits of a natural number, with explicit fuel (the
fuel `n + 1` always suffices since each step divides by 10). -/
def natCharsGo : ℕ → ℕ → List Char → List Char
  | 0, _, acc => acc
  | fuel + 1, n, acc =>
    if n < 10 then Char.ofNat (48 + n) :: acc
    else natCharsGo fuel (n / 10) (Char.ofNat (48 + n % 10) :: acc)

/-- Decimal digit characters of a natural number. -/
def natChars (n : ℕ) : List Char :=
  natCharsGo (n + 1) n []

/-- Decimal rendering of a rational number (stands for Python `str(x)`; the
exact digits are irrelevant to every theorem below, only non-emptiness is
used by the pipeline's truthiness test). -/
def ratStr (q : ℚ) : String :=
  String.mk ((if q < 0 then ['-'] else []) ++ natChars q.num.natAbs ++
    (if q.den = 1 then [] else '/' :: natChars q.den))

/-- Stands for Python `f"${x:.2f}"` (`reasoning.py` line 680). -/
def dollarStr (q : ℚ) : String :=
  String.mk ('$' :: (ratStr q).data)

theorem length_natCharsGo_ge (fuel n : ℕ) (acc : List Char) :
    acc.length ≤ (natCharsGo fuel n acc).length := by
  induction fuel generalizing n acc with
  | zero => simp [natCharsGo]
  | succ fuel ih =>
    by_cases h : n < 10
    · simp [natCharsGo, h]
    · simpa [natCharsGo, h] using
        le_trans (Nat.le_succ acc.length) (ih (n / 10) (Char.ofNat (48 + n % 10) :: acc))

theorem natChars_ne_nil (n : ℕ) : natChars n ≠ [] := by
  have h := length_natCharsGo_ge n (n / 10) [Char.ofNat (48 + n % 10)]
  unfold natChars natCharsGo
  by_cases hn : n < 10
  · simp [hn]
  · simp only [hn, if_false]
    intro he
    rw [he] at h
    simp at h

theorem ratStr_ne_empty (q : ℚ) : ratStr q ≠ "" := by
  intro hq
  have hdata : ((if q < 0 then ['-'] else []) ++ natChars q.num.natAbs ++
      (if q.den = 1 then [] else '/' :: natChars q.den)) = [] :=
    congrArg String.data hq
  rcases List.append_eq_nil.1 hdata with ⟨h1, _⟩
  rcases List.append_eq_nil.1 h1 with ⟨_, h3⟩
  exact natChars_ne_nil _ h3

theorem dollarStr_ne_empty (q : ℚ) : dollarStr q ≠ "" := by
  intro hq
  have hdata : ('$' :: (ratStr q).data) = [] := congrArg String.data hq
  exact List.cons_ne_nil _ _ hdata

/-! ## UncertaintyDetector (`uncertainty_detector.py`) -/

/-- Result of `UncertaintyDetector.analyze_response` (the diagnostic
`reason`/`details` strings are omitted; only `uncertain` and
`confidence_score` are read by the pipeline). -/
structure UAnalysis where
  uncertain : Bool
  confidence_score : ℚ
  deriving DecidableEq

/-- `UncertaintyDetector._calculate_repetition_ratio`: 1 − unique/total over
whitespace-split lowercased words; 0 when fewer than 5 words. -/
def repetitionRatio (text : String) : ℚ :=
  let words := pyWords (lowerStr text)
  if words.length < 5 then 0
  else 1 - (words.dedup.length : ℚ) / (words.length : ℚ)

/-- `UncertaintyDetector._calculate_confidence_score`: start at 1.0 and deduct
per trigger; the uncertainty-language deduction is
`min(0.4 + uncertain_match_count * 0.1, 0.6)`; clamp to [0, 1]. -/
def calcConfidenceScore (hasUncertainLanguage isTooShort hasExcessiveRepetition
    hasErrorIndicators codeQualityIssues : Bool) (uncertainMatchCount : ℕ) : ℚ :=
  let score : ℚ := 1
  let score := if hasUncertainLanguage then
    score - min ((2 : ℚ)/5 + (uncertainMatchCount : ℚ) * (1/10)) (3/5) else score
  let score := if isTooShort then score - 2/5 else score
  let score := if hasExcessiveRepetition then score - 3/10 else score
  let score := if hasErrorIndicators then score - 2/5 else score
  let score := if codeQualityIssues then score - 3/10 else score
  max 0 (min 1 score)

/-- `UncertaintyDetector.analyze_response`.  `uncertainMatchCount` is the
number of `uncertain_regex` matches on the stripped, lowercased response;
`hasErrorIndicators` and `codeQualityIssues` are the results of the regex
scanners `_check_error_indicators` / `_check_code_quality` (all three stand
for the Python regex engine's output on this text).  An empty or
whitespace-only response yields confidence 0 immediately. -/
def analyzeResponse (response : String) (uncertainMatchCount : ℕ)
    (hasErrorIndicators codeQualityIssues : Bool) : UAnalysis :=
  if pyStrip response = "" then
    { uncertain := true, confidence_score := 0 }
  else
    let clean := pyStrip response
    let hasUncertainLanguage := decide (0 < uncertainMatchCount)
    let isTooShort := decide (clean.length < 20)
    let hasExcessiveRepetition := decide (1/2 < repetitionRatio clean)
    let conf := calcConfidenceScore hasUncertainLanguage isTooShort
      hasExcessiveRepetition hasErrorIndicators codeQualityIssues uncertainMatchCount
    { uncertain := decide (conf < 3/5), confidence_score := conf }

/-- `UncertaintyDetector.should_trigger_fallback`: threshold defaults to 0.6. -/
def shouldTriggerFallback (response : String) (uncertainMatchCount : ℕ)
    (hasErrorIndicators codeQualityIssues : Bool) (overrideThreshold : Option ℚ) :
    Bool × UAnalysis :=
  let analysis := analyzeResponse response uncertainMatchCount hasErrorIndicators
    codeQualityIssues
  let threshold := overrideThreshold.getD (3/5)
  (analysis.confidence_score < threshold, analysis)

/-! ## FeedbackManager (`feedback_manager.py`) -/

/-- One entry of the `source_weights` table. -/
structure SourceWeight where
  base_confidence : ℚ
  bonuses : List (String × ℚ)
  success_count : ℕ
  total_count : ℕ
  deriving DecidableEq

/-- `FeedbackManager._default_weights`. -/
def defaultWeights : List (String × SourceWeight) :=
  [("websearch",  ⟨7/10,  [("bonus_time_sensitive", 3/20)], 0, 0⟩),
   ("perplexity", ⟨3/4,   [("bonus_synthesis", 1/10)],      0, 0⟩),
   ("claude",     ⟨17/20, [("bonus_coding", 1/5)],          0, 0⟩),
   ("local",      ⟨3/5,   [("bonus_math", 3/10)],           0, 0⟩)]

/-- The in-place mutation `_update_source_weights` performs on the entry of
the given source (learning rate 0.05, target 0.9/0.5, clamp to [0.4, 0.95];
the `success_rate` local variable of the Python code is computed but never
used, so it is not modelled). -/
def updateOneWeight (w : SourceWeight) (isCorrect : Bool) : SourceWeight :=
  let target : ℚ := if isCorrect then 9/10 else 1/2
  let adjustment : ℚ := (1/20) * (target - w.base_confidence)
  { w with
    total_count := w.total_count + 1
    success_count := w.success_count + (if isCorrect then 1 else 0)
    base_confidence := max (2/5) (min (19/20) (w.base_confidence + adjustment)) }

/-- `FeedbackManager._update_source_weights`: returns unchanged when the
source is absent from the table. -/
def updateSourceWeights (weights : List (String × SourceWeight)) (source : String)
    (isCorrect : Bool) : List (String × SourceWeight) :=
  if (assocLookup weights source).isSome then
    weights.map (fun p => if p.1 = source then (p.1, updateOneWeight p.2 isCorrect) else p)
  else weights

/-- A feedback event as assembled by `add_feedback` (timestamp and metadata
omitted; the response is truncated at 200 characters). -/
structure FeedbackEvent where
  query : String
  response : String
  is_correct : Bool
  note : Option String
  source : String
  confidence : ℚ
  feedback_type : String
  deriving DecidableEq

/-- `FeedbackManager.session_stats`. -/
structure SessionStats where
  correct : ℕ
  incorrect : ℕ
  refinements : ℕ
  learning_events : ℕ
  deriving DecidableEq

/-- The mutable state of a `FeedbackManager` (persistence side effects
dropped).  Learning events store a projection of the feedback event; they are
modelled by the event itself. -/
structure FeedbackState where
  feedback_history : List FeedbackEvent
  learning_events : List FeedbackEvent
  source_weights : List (String × SourceWeight)
  session_stats : SessionStats
  deriving DecidableEq

/-- A fresh `FeedbackManager` with no persisted data. -/
def initialFeedbackState : FeedbackState :=
  { feedback_history := [], learning_events := [],
    source_weights := defaultWeights,
    session_stats := ⟨0, 0, 0, 0⟩ }

/-- Arguments of one `add_feedback` call. -/
structure FeedbackArgs where
  query : String
  response : String
  is_correct : Bool
  note : Option String
  source : String
  confidence : ℚ

/-- `FeedbackManager.add_feedback`: build the event, update session stats,
append to the history, update source weights, and create a learning event
when the feedback is negative or carries a note. -/
def addFeedback (st : FeedbackState) (a : FeedbackArgs) : FeedbackState :=
  let event : FeedbackEvent :=
    { query := a.query
      response := if a.response.length > 200 then a.response.take 200 ++ "..." else a.response
      is_correct := a.is_correct
      note := a.note
      source := a.source
      confidence := a.confidence
      feedback_type := if a.is_correct && a.note.isSome then "refinement" else "correction" }
  let stats := st.session_stats
  let stats :=
    if a.is_correct then
      if a.note.isSome then { stats with refinements := stats.refinements + 1 }
      else { stats with correct := stats.correct + 1 }
    else { stats with incorrect := stats.incorrect + 1 }
  let st := { st with
    session_stats := stats
    feedback_history := st.feedback_history ++ [event]
    source_weights := updateSourceWeights st.source_weights a.source a.is_correct }
  if !a.is_correct || (a.is_correct && a.note.isSome) then
    { st with
      learning_events := st.learning_events ++ [event]
      session_stats := { st.session_stats with
        learning_events := st.session_stats.learning_events + 1 } }
  else st

/-- A sequence of `add_feedback` calls. -/
def applyFeedbacks (st : FeedbackState) : List FeedbackArgs → FeedbackState
  | [] => st
  | a :: rest => applyFeedbacks (addFeedback st a) rest

/-- The spec's QI4 invariant on one weights table. -/
def WeightsInv (ws : List (String × SourceWeight)) : Prop :=
  ∀ p ∈ ws, p.2.success_count ≤ p.2.total_count ∧
    (2 : ℚ)/5 ≤ p.2.base_confidence ∧ p.2.base_confidence ≤ 19/20

/-! ## MathReasoner (`math_reasoner.py`)

The three solver shapes exercised by the claims are translated (rate,
difference, compound percentage).  The `MathSolution` structure mirrors the
heterogeneous result dictionaries: each Python key becomes an optional field,
absent keys are `none`.  Step strings are assembled with `ratStr` in place of
Python float formatting. -/

/-- One `MathStep` record. -/
structure MathStep where
  step_num : ℕ
  description : String
  formula : String
  calculation : String
  result : String
  deriving DecidableEq

/-- The `solution` value of `solve_multi_step_puzzle` — either the
procedure/identification dictionary or the "Unknown puzzle type" string. -/
inductive PuzzleSolution where
  | proc (procedure : List String) (identification : List (String × String))
  | text (s : String)
  deriving DecidableEq

/-- A solver result dictionary.  `answer`, `smaller_item`, `larger_item`,
`final_value`, `total_change_percentage` and `solution` model the keys that
appear in at least one solver's return value; a key absent from a given
solver's dictionary is `none`. -/
structure MathSolution where
  steps : List MathStep
  answer : Option ℚ := none
  smaller_item : Option ℚ := none
  larger_item : Option ℚ := none
  final_value : Option ℚ := none
  total_change_percentage : Option ℚ := none
  solution : Option PuzzleSolution := none
  verified : Bool
  deriving DecidableEq

/-- `MathReasoner.solve_rate_problem`.  Python raises `ZeroDivisionError`
when `initial_workers * initial_time = 0`, `target_time = 0` or
`initial_units = 0`; those inputs are outside this embedding (callers below
use non-zero values), on them the ℚ convention `x / 0 = 0` applies instead
of an exception.  The verification tolerance is 1e-2. -/
def solveRateProblem (initialUnits initialTime initialWorkers targetUnits
    targetTime : ℚ) : MathSolution :=
  let ratePerWorker := initialUnits / (initialWorkers * initialTime)
  let requiredRate := targetUnits / targetTime
  let workersNeeded := requiredRate / ratePerWorker
  let verifyUnits := workersNeeded * ratePerWorker * targetTime
  { steps :=
      [⟨1, "Calculate production rate per worker per time unit",
        "rate_per_worker = units / (workers × time)",
        ratStr initialUnits ++ " / (" ++ ratStr initialWorkers ++ " × " ++
          ratStr initialTime ++ ")",
        ratStr ratePerWorker ++ " units per worker per time unit"⟩,
       ⟨2, "Calculate required total production rate",
        "required_rate = target_units / target_time",
        ratStr targetUnits ++ " / " ++ ratStr targetTime,
        ratStr requiredRate ++ " units per time unit"⟩,
       ⟨3, "Calculate number of workers needed",
        "workers_needed = required_rate / rate_per_worker",
        ratStr requiredRate ++ " / " ++ ratStr ratePerWorker,
        ratStr workersNeeded ++ " workers"⟩,
       ⟨4, "Verify the answer",
        "verification = workers × rate_per_worker × time",
        ratStr workersNeeded ++ " × " ++ ratStr ratePerWorker ++ " × " ++
          ratStr targetTime,
        if |verifyUnits - targetUnits| < 1/100 then
          ratStr verifyUnits ++ " units (should equal " ++ ratStr targetUnits ++ ") ✓"
        else ratStr verifyUnits ++ " units ✗"⟩]
    answer := some workersNeeded
    verified := decide (|verifyUnits - targetUnits| < 1/100) }

/-- `MathReasoner.solve_difference_problem` (the bat-and-ball shape).  The
`verified` flag checks only the total (the Python conjunct on the difference
is part of the step text, not of the returned flag). -/
def solveDifferenceProblem (total difference : ℚ) : MathSolution :=
  let smaller := (total - difference) / 2
  let larger := smaller + difference
  let verifyTotal := smaller + larger
  { steps :=
      [⟨1, "Define variables", "Let smaller_item = x, larger_item = x + difference",
        "ball = x, bat = x + " ++ ratStr difference, "Variables defined"⟩,
       ⟨2, "Set up equation from total",
        "smaller + larger = total → x + (x + difference) = total",
        "x + (x + " ++ ratStr difference ++ ") = " ++ ratStr total,
        "2x + " ++ ratStr difference ++ " = " ++ ratStr total⟩,
       ⟨3, "Solve for smaller item",
        "2x = total - difference → x = (total - difference) / 2",
        "2x = " ++ ratStr total ++ " - " ++ ratStr difference, ratStr smaller⟩,
       ⟨4, "Calculate larger item", "larger = smaller + difference",
        ratStr smaller ++ " + " ++ ratStr difference, ratStr larger⟩,
       ⟨5, "Verify the answer",
        "Check: smaller + larger = total AND larger - smaller = difference",
        ratStr smaller ++ " + " ++ ratStr larger ++ " = " ++ ratStr verifyTotal,
        if |verifyTotal - total| < 1/100 ∧ |larger - smaller - difference| < 1/100
        then "✓ Verified" else "✗ Verification failed"⟩]
    smaller_item := some smaller
    larger_item := some larger
    verified := decide (|verifyTotal - total| < 1/100) }

/-- One percentage change: `(direction, percentage)` with `true` standing for
`"increase"`. -/
abbrev PctChange := Bool × ℚ

/-- The per-change step of `solve_compound_percentage`. -/
def pctStep (stepNum : ℕ) (current : ℚ) (c : PctChange) : MathStep :=
  let multiplier : ℚ := if c.1 then 1 + c.2 / 100 else 1 - c.2 / 100
  ⟨stepNum, "Apply " ++ (if c.1 then "+" else "-") ++ ratStr c.2 ++ "% change",
   "new_value = current_value × " ++ ratStr multiplier,
   ratStr current ++ " × " ++ ratStr multiplier ++ " = " ++ ratStr (current * multiplier),
   ratStr (current * multiplier)⟩

/-- Folds the percentage changes, collecting steps. -/
def pctFold : ℚ → ℕ → List PctChange → ℚ × List MathStep
  | current, _, [] => (current, [])
  | current, stepNum, c :: rest =>
    let multiplier : ℚ := if c.1 then 1 + c.2 / 100 else 1 - c.2 / 100
    let next := pctFold (current * multiplier) (stepNum + 1) rest
    (next.1, pctStep stepNum current c :: next.2)

/-- `MathReasoner.solve_compound_percentage`.  Python raises
`ZeroDivisionError` when `initial = 0` (total-change division); callers below
use non-zero initial values.  Note the result is stored under `final_value`
and `total_change_percentage` — there is no `answer` or `smaller_item` key. -/
def solveCompoundPercentage (initial : ℚ) (changes : List PctChange) : MathSolution :=
  let folded := pctFold initial 2 changes
  let currentValue := folded.1
  let totalChangePct := (currentValue - initial) / initial * 100
  { steps :=
      ⟨1, "Starting value", "Initial value", dollarStr initial, dollarStr initial⟩ ::
        folded.2 ++
        [⟨2 + changes.length, "Calculate total percentage change from start",
          "total_change% = ((final - initial) / initial) × 100",
          "((" ++ ratStr currentValue ++ " - " ++ ratStr initial ++ ") / " ++
            ratStr initial ++ ") × 100",
          ratStr totalChangePct ++ "%"⟩]
    final_value := some currentValue
    total_change_percentage := some totalChangePct
    verified := true }

/-! ## ReasoningEngine (`reasoning.py`) -/

/-- One `ReasoningStep` record. -/
structure ReasoningStep where
  step_num : ℕ
  description : String
  calculation : Option String := none
  result : Option String := none
  deriving DecidableEq

/-- The mutable state of a `ReasoningEngine` that the question-boundary
mechanism touches (`current_trace`, `last_math_answer`, `last_math_solution`,
`current_question_id`). -/
structure REState where
  current_trace : List ReasoningStep
  last_math_answer : Option ℚ
  last_math_solution : Option MathSolution
  current_question_id : Option String
  deriving DecidableEq

/-- `ReasoningEngine.__init__`: empty trace, no stored answer, no question. -/
def initialREState : REState :=
  { current_trace := [], last_math_answer := none,
    last_math_solution := none, current_question_id := none }

/-- `ReasoningEngine.start_new_question`: when the id differs from the
current one, clear the stored calculated answer, solver solution and trace
and adopt the new id; a retry with the same id leaves the state intact. -/
def startNewQuestion (s : REState) (questionId : String) : REState :=
  if s.current_question_id ≠ some questionId then
    { current_trace := [], last_math_answer := none,
      last_math_solution := none, current_question_id := some questionId }
  else s

/-- The Python conversion of a `MathStep` into a `ReasoningStep` inside
`_reason_math_problem` (empty-string truthiness on `calculation`; `result`
is always a non-empty string in the solvers above, so the `if
math_step.result` test keeps it). -/
def toReasoningStep (m : MathStep) : ReasoningStep :=
  { step_num := m.step_num
    description := m.description
    calculation := some (if m.calculation ≠ "" then m.calculation else m.formula)
    result := if m.result = "" then none else some m.result }

/-- The generic five-step template `_reason_math_problem` falls back to when
the solver recognises nothing. -/
def genericMathSteps : List ReasoningStep :=
  [⟨1, "Identify the given information",
    some "Extract all numbers and relationships from the problem statement", none⟩,
   ⟨2, "Determine what needs to be calculated",
    some "Identify the unknown variable and what formula applies", none⟩,
   ⟨3, "Set up the mathematical relationship",
    some "Write out the equation with variables defined", none⟩,
   ⟨4, "Perform the calculation step-by-step",
    some "Show all arithmetic operations with intermediate results", none⟩,
   ⟨5, "Verify the answer",
    some "Substitute back into original constraints to check correctness", none⟩]

/-- `ReasoningEngine._reason_math_problem` followed by the
`self.current_trace = steps` assignment of `generate_reasoning_trace`.
`detection` is the value `math_reasoner.detect_and_solve(query)` returned for
this prompt (the regex pattern dispatch is the caller's input).  On success
the answer is stored via Python `solution.get('answer') or
solution.get('smaller_item')` (so a zero `answer` falls through, and
solutions carrying neither key store `None`); on failure only
`last_math_answer` is reset — `last_math_solution` keeps its previous
value, exactly as in the source. -/
def reasonMathProblem (s : REState) (detection : Option MathSolution) : REState :=
  match detection with
  | some sol =>
    { s with
      current_trace := sol.steps.map toReasoningStep
      last_math_answer := pyOrQ sol.answer sol.smaller_item
      last_math_solution := some sol }
  | none =>
    { s with current_trace := genericMathSteps, last_math_answer := none }

/-- Rendering of a puzzle solution inside `get_calculated_answer`. -/
def puzzleStr : PuzzleSolution → String
  | .proc procedure identification =>
    String.intercalate "\n" procedure ++ "\n\nIdentification:\n" ++
      String.intercalate "\n"
        (identification.map (fun kv => "  " ++ kv.1 ++ ": " ++ kv.2))
  | .text s => s

/-- `ReasoningEngine.get_calculated_answer`: `None` unless a math answer is
stored; otherwise formats according to which keys the stored solution
carries (`solution` → puzzle text, `smaller_item` → dollar format, else
`str(answer)`). -/
def getCalculatedAnswer (s : REState) : Option String :=
  match s.last_math_answer with
  | none => none
  | some a =>
    match s.last_math_solution with
    | some sol =>
      match sol.solution with
      | some puz => some (puzzleStr puz)
      | none =>
        match sol.smaller_item with
        | some sm => some (dollarStr sm)
        | none => some (ratStr a)
    | none => some (ratStr a)

/-! ## Query classification metadata (`reasoning.py`, `classify_query`)

Only the `metadata` component of `classify_query` is consumed by
`detect_temporal_uncertainty` (the returned kind and confidence are
discarded there), so only that component is embedded. -/

/-- The temporal keyword list of `classify_query`. -/
def temporalKeywords : List String :=
  ["latest", "newest", "recent", "recently", "current", "currently",
   "now", "today", "this year", "2025", "2024", "emerging",
   "new", "just", "most recent", "up-to-date", "trending",
   "breaking", "modern", "contemporary", "present"]

/-- The web-research keyword list of `classify_query`. -/
def webResearchKeywords : List String :=
  ["latest", "2025", "2024", "published", "papers", "studies",
   "advancements", "research", "published in", "recent", "news",
   "current", "today", "this year", "breakthrough", "development"]

/-- The `metadata` dictionary built by `classify_query`. -/
structure ClassifyMetadata where
  time_sensitive : Bool
  temporal_score : ℕ
  needs_live_data : Bool
  deriving DecidableEq

/-- The metadata computation of `ReasoningEngine.classify_query`: per-keyword
substring counts over the lowercased query; `time_sensitive` when the
temporal score is positive or one of five literal phrases occurs;
`needs_live_data` when time-sensitive or the web score reaches 2. -/
def classifyQueryMetadata (query : String) : ClassifyMetadata :=
  let queryLower := lowerStr query
  let temporalScore := (temporalKeywords.filter (fun kw => pyIn kw queryLower)).length
  let webScore := (webResearchKeywords.filter (fun kw => pyIn kw queryLower)).length
  let timeSensitive := decide (0 < temporalScore) ||
    (["who is", "what is", "president", "currently", "right now"].any
      (fun w => pyIn w queryLower))
  { time_sensitive := timeSensitive
    temporal_score := temporalScore
    needs_live_data := timeSensitive || decide (2 ≤ webScore) }

/-- Result of `ReasoningEngine.detect_temporal_uncertainty` (the
`current_date`/`knowledge_cutoff` display strings are omitted). -/
structure TemporalAnalysis where
  time_sensitive : Bool
  needs_live_data : Bool
  temporal_uncertain : Bool
  is_post_cutoff : Bool
  should_trigger_fallback : Bool
  deriving DecidableEq

/-- `ReasoningEngine.detect_temporal_uncertainty`.  `isPostCutoff` is the
clock reading `time_sync.is_after_knowledge_cutoff()` (false when no
`time_sync` is attached, as in the source). -/
def detectTemporalUncertainty (query : String) (isPostCutoff : Bool) :
    TemporalAnalysis :=
  let md := classifyQueryMetadata query
  let temporalUncertain := md.time_sensitive && isPostCutoff
  { time_sensitive := md.time_sensitive
    needs_live_data := md.needs_live_data
    temporal_uncertain := temporalUncertain
    is_post_cutoff := isPostCutoff
    should_trigger_fallback := temporalUncertain || md.needs_live_data }

/-! ## The `process_input` pipeline fragment (`genesis.py`, lines 861–1078)

The fragment from `start_new_question` up to the choice of the final
response and source.  External effects are inputs: the LLM's reply, the
regex scanners' verdicts on it, and the cascade adapters' results. -/

/-- The environment one fallback cascade runs in: `websearchResult` is what
`self.websearch.search(user_input)` returns (`none` models a raised
exception caught by the surrounding `try`), `perplexityResult` is
`tools.ask_perplexity`, `claudeResponse` is
`claude_fallback.request_claude_assist` (`none` = unreachable). -/
structure CascadeEnv where
  websearchResult : Option (Bool × String × ℚ)
  perplexityResult : Bool × String
  claudeEnabled : Bool
  claudeResponse : Option String

/-- Observable outcome of the pipeline fragment for one prompt. -/
structure PipelineOutcome where
  usedCalculatedAnswer : Bool
  llmCalled : Bool
  uncertaintyGateRun : Bool
  shouldFallback : Bool
  confidenceScore : ℚ
  responseSource : String
  finalResponse : String
  earlyUncertainReturn : Bool
  deriving DecidableEq

/-- The `process_input` fragment.  Regex-engine inputs: `isMathWordProblem`
(`detect_problem_type(query) == "math_word_problem"`), `detection`
(`math_reasoner.detect_and_solve(query)`), `otherTraceSteps` (the template
the non-math `generate_reasoning_trace` branches produce),
`llmUncertainMatches` / `llmErrorIndicators` / `llmCodeIssues` (the
uncertainty detector's regex scans of the LLM reply).  The guards on the
cascade responses mirror Python truthiness (`if not websearch_response`,
`elif claude_response`, …).  An exception raised by `call_llm` aborts the
prompt and is outside this embedding. -/
def processInputCore (s0 : REState) (questionId : String) (query : String)
    (isPostCutoff : Bool) (isMathWordProblem : Bool)
    (detection : Option MathSolution) (otherTraceSteps : List ReasoningStep)
    (llmResponse : String) (llmUncertainMatches : ℕ)
    (llmErrorIndicators llmCodeIssues : Bool) (env : CascadeEnv) :
    PipelineOutcome × REState :=
  let s1 := startNewQuestion s0 questionId
  let temporal := detectTemporalUncertainty query isPostCutoff
  let s2 := if isMathWordProblem then reasonMathProblem s1 detection
            else { s1 with current_trace := otherTraceSteps }
  let calculatedAnswer := getCalculatedAnswer s2
  let used := match calculatedAnswer with
    | some a => a != ""
    | none => false
  let response := if used then calculatedAnswer.getD "" else llmResponse
  let gate := shouldTriggerFallback llmResponse llmUncertainMatches
    llmErrorIndicators llmCodeIssues none
  let shouldFb :=
    if used then false
    else gate.1 || temporal.should_trigger_fallback
  let confidence : ℚ :=
    if used then 1
    else if temporal.should_trigger_fallback then
      min gate.2.confidence_score (1/2)
    else gate.2.confidence_score
  let websearchResponse : Option String :=
    if shouldFb then
      match env.websearchResult with
      | some (true, ans, c) => if (1 : ℚ)/2 ≤ c then some ans else none
      | _ => none
    else none
  let perplexityResponse : Option String :=
    if shouldFb && !(truthyStr websearchResponse) then
      if env.perplexityResult.1 then some env.perplexityResult.2 else none
    else none
  let claudeTried := shouldFb && !(truthyStr websearchResponse) &&
    !(truthyStr perplexityResponse) && env.claudeEnabled
  let claudeResponse : Option String :=
    if claudeTried then env.claudeResponse else none
  let source :=
    if truthyStr claudeResponse then "claude"
    else if perplexityResponse.isSome then "perplexity"
    else if websearchResponse.isSome then "websearch"
    else if used then "local_calculated" else "local"
  let finalResponse :=
    if truthyStr websearchResponse then websearchResponse.getD ""
    else if truthyStr perplexityResponse then perplexityResponse.getD ""
    else if truthyStr claudeResponse then claudeResponse.getD ""
    else response
  ({ usedCalculatedAnswer := used
     llmCalled := !used
     uncertaintyGateRun := !used
     shouldFallback := shouldFb
     confidenceScore := confidence
     responseSource := source
     finalResponse := finalResponse
     earlyUncertainReturn := claudeTried && env.claudeResponse.isNone }, s2)

/-! ## WebSearch (`websearch.py`)

The cache directory becomes an association list keyed by the query (the
`md5(query)` fingerprint is modelled as the query itself: the claims concern
identical queries, which map to identical fingerprints).  The file mtime the
freshness check reads becomes the `mtime` field; the stored `timestamp`
value equals it.  Each entry of `sourceOutcomes` is one source's
`(name, success, results)` in `as_completed` order and corresponds to one
outbound query; a source-level exception is already a `(False, [])` in the
source code. -/

/-- One parsed search result dictionary. -/
structure SearchResult where
  title : String
  url : String
  snippet : String
  source : String
  deriving DecidableEq

/-- One cached search result file. -/
structure CacheEntry where
  answer : String
  confidence : ℚ
  sources : List String
  mtime : ℚ
  deriving DecidableEq

/-- The state of the cache directory. -/
abbrev SearchCache := List (String × CacheEntry)

/-- `WebSearchCache.get`: miss when absent; stale entries (age strictly
above the TTL) are unlinked on read and reported as a miss. -/
def cacheGet (c : SearchCache) (q : String) (now ttl : ℚ) :
    Option CacheEntry × SearchCache :=
  match assocLookup c q with
  | none => (none, c)
  | some e =>
    if ttl < now - e.mtime then (none, c.filter (fun p => p.1 ≠ q))
    else (some e, c)

/-- `WebSearchCache.set`: (over)write the entry file for this query. -/
def cacheSet (c : SearchCache) (q : String) (e : CacheEntry) : SearchCache :=
  (q, e) :: c.filter (fun p => p.1 ≠ q)

/-- The source-grouping loop of `_synthesize_results` (insertion order of
first appearance, as for a Python dict). -/
def addToGroups : List (String × List SearchResult) → SearchResult →
    List (String × List SearchResult)
  | [], r => [(r.source, [r])]
  | (k, v) :: rest, r =>
    if k = r.source then (k, v ++ [r]) :: rest else (k, v) :: addToGroups rest r

/-- The per-result lines of `_synthesize_results` (top three per source;
snippet truncated at 150 characters, with the `"No description"`
placeholder). -/
def resultLines (srs : List SearchResult) : List String :=
  ((srs.take 3).enumFrom 1).flatMap (fun p =>
    let snippet := if p.2.snippet ≠ "" then p.2.snippet.take 150 else "No description"
    [toString p.1 ++ ". " ++ p.2.title,
     "   " ++ snippet ++ "...",
     "   " ++ p.2.url])

/-- `WebSearch._synthesize_results`: confidence is
`min(1, n_results/10) × min(1, n_sources/3)`; the answer is the grouped,
formatted result list plus a source citation. -/
def synthesizeResults (results : List SearchResult) (sources : List String) :
    String × ℚ :=
  if results = [] then ("No information found", 0)
  else
    let confidence := min 1 ((results.length : ℚ) / 10) * min 1 ((sources.length : ℚ) / 3)
    let groups := results.foldl addToGroups []
    let lines := groups.flatMap (fun g => ("\n**" ++ g.1 ++ ":**") :: resultLines g.2)
    let synthesized := String.intercalate "\n" lines
    let synthesized :=
      if sources ≠ [] then
        synthesized ++ "\n\n**Sources consulted:** " ++ String.intercalate ", " sources
      else synthesized
    (synthesized, confidence)

/-- The `as_completed` collection loop of `WebSearch.search`: keep the
results and name of every source that succeeded with a non-empty result
list. -/
def collectResults (sourceOutcomes : List (String × Bool × List SearchResult)) :
    List SearchResult × List String :=
  sourceOutcomes.foldl
    (fun acc o =>
      if o.2.1 && !o.2.2.isEmpty then (acc.1 ++ o.2.2, acc.2 ++ [o.1]) else acc)
    (([] : List SearchResult), ([] : List String))

/-- `WebSearch.search`.  Returns the `(success, answer, confidence)` triple,
the new cache state, and the number of outbound source queries issued. -/
def webSearchRun (c : SearchCache) (q : String) (now minConfidence : ℚ)
    (sourceOutcomes : List (String × Bool × List SearchResult)) :
    (Bool × String × ℚ) × SearchCache × ℕ :=
  let collected := collectResults sourceOutcomes
  let allResults := collected.1
  let successfulSources := collected.2
  if allResults = [] then
    ((false, "No search results found", 0), c, sourceOutcomes.length)
  else
    let syn := synthesizeResults allResults successfulSources
    let c2 := if minConfidence ≤ syn.2 then
        cacheSet c q ⟨syn.1, syn.2, successfulSources, now⟩
      else c
    ((true, syn.1, syn.2), c2, sourceOutcomes.length)

/-- `WebSearch.search` including the cache-first branch (`use_cache`);
`minConfidence` defaults to 0.7 and `ttl` to 900 seconds in the source. -/
def webSearch (c : SearchCache) (q : String) (useCache : Bool)
    (now ttl minConfidence : ℚ)
    (sourceOutcomes : List (String × Bool × List SearchResult)) :
    (Bool × String × ℚ) × SearchCache × ℕ :=
  if useCache then
    match cacheGet c q now ttl with
    | (some e, c2) => ((true, e.answer, e.confidence), c2, 0)
    | (none, c2) => webSearchRun c2 q now minConfidence sourceOutcomes
  else webSearchRun c q now minConfidence sourceOutcomes

/-! ## LearningMemory auto-pruning (`learning_memory.py`)

A stored conversation is modelled by the fields `_prune_conversations`
reads; the remaining dictionary fields (texts, timestamps below day
granularity) do not influence pruning and are elided.  `now` is the day
ordinal of `datetime.now()`; `(now - timestamp).days` becomes integer
subtraction.  `int(max_conversations * 0.7)` becomes the exact rational
floor `7 * max / 10`. -/

/-- The pruning-relevant projection of one stored conversation. -/
structure Conv where
  timestampDay : ℤ
  responseLen : ℕ
  feedbackCorrect : Bool
  hadFallback : Bool
  hasError : Bool
  deriving DecidableEq

/-- The configuration of a `LearningMemory` (defaults: 1000 conversations,
90 days, threshold 0.8). -/
structure MemoryConfig where
  max_conversations : ℕ
  max_age_days : ℕ
  prune_threshold : ℚ
  deriving DecidableEq

/-- The retention score `_prune_conversations` assigns to one conversation:
age factor (newer is better, only under `max_age_days`), length factor,
feedback/fallback bonuses, error penalty. -/
def convScore (maxAgeDays : ℕ) (now : ℤ) (c : Conv) : ℚ :=
  (if now - c.timestampDay < maxAgeDays then
    ((maxAgeDays : ℚ) - (now - c.timestampDay : ℤ)) / maxAgeDays * 10 else 0)
  + (if 100 < c.responseLen then min ((c.responseLen : ℚ) / 100) 5 else 0)
  + (if c.feedbackCorrect then 5 else 0)
  + (if c.hadFallback then 3 else 0)
  - (if c.hasError then 2 else 0)

/-- The descending-score order `scored.sort(reverse=True, key=...)` sorts
by.  Python's sort is stable; so is `List.insertionSort` with this
reflexive total preorder, so both produce the same list. -/
def scoreGE (cfg : MemoryConfig) (now : ℤ) (a b : Conv) : Prop :=
  convScore cfg.max_age_days now b ≤ convScore cfg.max_age_days now a

instance (cfg : MemoryConfig) (now : ℤ) : DecidableRel (scoreGE cfg now) :=
  fun a b => inferInstanceAs (Decidable
    (convScore cfg.max_age_days now b ≤ convScore cfg.max_age_days now a))

/-- `LearningMemory._prune_conversations`: sort by score descending, keep
the top `int(max_conversations * 0.7)`. -/
def pruneConversations (cfg : MemoryConfig) (now : ℤ) (l : List Conv) : List Conv :=
  (l.insertionSort (scoreGE cfg now)).take (7 * cfg.max_conversations / 10)

/-- `LearningMemory._auto_prune`: prune exactly when the count has reached
`max_conversations * prune_threshold`. -/
def autoPrune (cfg : MemoryConfig) (now : ℤ) (l : List Conv) : List Conv :=
  if cfg.prune_threshold * cfg.max_conversations ≤ (l.length : ℚ) then
    pruneConversations cfg now l
  else l

/-! ## GenesisBridge (`genesis_bridge.py`) -/

/-- `GenesisBridge._sanitize_code`'s denylist. -/
def dangerousPatterns : List String :=
  ["import socket",
   "import requests",
   "import urllib",
   "import http.client",
   "os.system(",
   "subprocess.Popen",
   "eval(",
   "exec(",
   "__import__",
   "open(\"/etc",
   "open(\"/sys",
   "open(\"/proc"]

/-- `GenesisBridge._sanitize_code`: reject on the first matching pattern. -/
def sanitizeCode (code : String) : Bool × String :=
  match dangerousPatterns.find? (fun p => pyIn p code) with
  | some p => (false, "Potentially unsafe operation detected: " ++ p)
  | none => (true, "Safe")

/-- The peers `_verify_localhost` accepts. -/
def loopbackPeers : List String := ["127.0.0.1", "localhost", "::1"]

/-- Observable outcome of one `POST /run` request: the HTTP status and
whether `_execute_code` (the subprocess spawn) was reached. -/
structure BridgeResponse where
  status : ℕ
  executed : Bool
  deriving DecidableEq

/-- `GenesisBridge._handle_run_request`.  `headerKey` is the
`X-Genesis-Key` header (`""` when absent); `body` is the parsed JSON's
`code` field (`none` when the body is missing, malformed, falsy, or has no
`code` key).  On acceptance the subprocess runs and a 200 response carries
its output regardless of the child's exit status; the internal-error 500
path (an exception inside the handler) is outside this embedding. -/
def handleRunRequest (apiKey remoteAddr headerKey : String)
    (body : Option String) : BridgeResponse :=
  if remoteAddr ∈ loopbackPeers then
    if headerKey = apiKey then
      match body with
      | none => ⟨400, false⟩
      | some code => if (sanitizeCode code).1 then ⟨200, true⟩ else ⟨400, false⟩
    else ⟨401, false⟩
  else ⟨403, false⟩

/-! ## Theorems -/

/-- Claim C6: for every empty or whitespace-only response text, the
uncertainty detector returns `confidence_score = 0` and
`should_trigger_fallback` under the default threshold 0.6 returns true. -/
theorem empty_response_zero_confidence_fallback (response : String)
    (uncertainMatchCount : ℕ) (hasErrorIndicators codeQualityIssues : Bool)
    (h : pyStrip response = "") :
    (analyzeResponse response uncertainMatchCount hasErrorIndicators
      codeQualityIssues).confidence_score = 0 ∧
    (shouldTriggerFallback response uncertainMatchCount hasErrorIndicators
      codeQualityIssues none).1 = true := by
  refine ⟨by simp [analyzeResponse, h], ?_⟩
  simp only [shouldTriggerFallback, analyzeResponse, h, if_pos, Option.getD_none]
  norm_num

/-- Witness for C6 on the whitespace-only response `"   "`. -/
theorem empty_response_zero_confidence_fallback_witness :
    (analyzeResponse "   " 0 false false).confidence_score = 0 ∧
    (shouldTriggerFallback "   " 0 false false none).1 = true :=
  empty_response_zero_confidence_fallback "   " 0 false false (by decide)

/-- The sample response used for C5 has seven distinct words, hence
repetition ratio 0. -/
theorem repetitionRatio_maybe_sentence :
    repetitionRatio (pyStrip "maybe the answer is forty two today.") = 0 := by
  have hw : pyWords (lowerStr (pyStrip "maybe the answer is forty two today.")) =
      ["maybe".data, "the".data, "answer".data, "is".data, "forty".data,
       "two".data, "today.".data] := by decide
  simp only [repetitionRatio, hw]
  rw [if_neg (by decide)]
  rw [show (["maybe".data, "the".data, "answer".data, "is".data, "forty".data,
    "two".data, "today.".data] : List (List Char)).dedup.length = 7 from by decide]
  norm_num

/-- Claim C5, counterexample: the claim predicts that a response with
exactly one uncertainty-phrase match is deducted exactly 0.4 (confidence
0.6); the code deducts `min(0.4 + 1 × 0.1, 0.6) = 0.5`, so the response
`"maybe the answer is forty two today."` — one match of the `maybe`
pattern, no other trigger — scores 0.5, not 0.6. -/
theorem single_uncertain_match_deducts_half :
    (analyzeResponse "maybe the answer is forty two today." 1 false
      false).confidence_score = 1/2 ∧
    ((1 : ℚ)/2 ≠ 1 - 2/5) := by
  constructor
  · have hne : ¬ pyStrip "maybe the answer is forty two today." = "" := by decide
    have hlen : decide ((pyStrip "maybe the answer is forty two today.").length < 20) =
        false := by decide
    have hrepd : decide ((1 : ℚ)/2 <
        repetitionRatio (pyStrip "maybe the answer is forty two today.")) = false :=
      decide_eq_false (by rw [repetitionRatio_maybe_sentence]; norm_num)
    simp only [analyzeResponse, if_neg hne, hlen, hrepd, calcConfidenceScore]
    norm_num [min_def, max_def]
  · norm_num

/-- Claim C5, amended: for every response with non-empty trimmed text of at
least 20 characters, repetition ratio not above 0.5, no error indicators and
no code-quality issues, and `count ≥ 1` uncertainty-phrase matches, the
uncertainty-language deduction is `0.4 + 0.1 per match including the first`,
capped at 0.6: the confidence is `1 − min(0.4 + count × 0.1, 0.6)` (so one
match deducts 0.5, not 0.4). -/
theorem uncertain_language_deduction (response : String) (count : ℕ)
    (hne : pyStrip response ≠ "")
    (hlen : ¬ (pyStrip response).length < 20)
    (hrep : ¬ (1 : ℚ)/2 < repetitionRatio (pyStrip response))
    (hcnt : 0 < count) :
    (analyzeResponse response count false false).confidence_score =
      1 - min ((2 : ℚ)/5 + count * (1/10)) (3/5) := by
  have hmin0 : (0 : ℚ) ≤ min ((2 : ℚ)/5 + count * (1/10)) (3/5) := by
    refine le_min ?_ (by norm_num)
    positivity
  have hmin1 : min ((2 : ℚ)/5 + count * (1/10)) (3/5) ≤ 3/5 := min_le_right _ _
  simp only [analyzeResponse, if_neg hne, decide_eq_true hcnt,
    decide_eq_false hlen, decide_eq_false hrep, calcConfidenceScore,
    if_true, Bool.false_eq_true, if_false]
  rw [min_eq_right (by linarith), max_eq_right (by linarith)]

/-- Witness for the amended C5 on a 36-character response with one match. -/
theorem uncertain_language_deduction_witness :
    (analyzeResponse "maybe the answer is forty two today." 1 false
      false).confidence_score = 1 - min ((2 : ℚ)/5 + ((1 : ℕ) : ℚ) * (1/10)) (3/5) :=
  uncertain_language_deduction "maybe the answer is forty two today." 1
    (by decide) (by decide)
    (by rw [repetitionRatio_maybe_sentence]; norm_num) (by decide)

/-- One `_update_source_weights` mutation keeps the counters ordered and the
base confidence inside the clamp range. -/
theorem updateOneWeight_bounds (w : SourceWeight) (c : Bool)
    (h : w.success_count ≤ w.total_count) :
    (updateOneWeight w c).success_count ≤ (updateOneWeight w c).total_count ∧
    (2 : ℚ)/5 ≤ (updateOneWeight w c).base_confidence ∧
    (updateOneWeight w c).base_confidence ≤ 19/20 := by
  refine ⟨?_, le_max_left _ _, max_le (by norm_num) (min_le_left _ _)⟩
  simp only [updateOneWeight]
  cases c <;> simp <;> omega

/-- `_update_source_weights` preserves the QI4 invariant. -/
theorem weightsInv_update (ws : List (String × SourceWeight)) (src : String)
    (c : Bool) (h : WeightsInv ws) : WeightsInv (updateSourceWeights ws src c) := by
  unfold updateSourceWeights
  split
  · intro p hp
    rcases List.mem_map.1 hp with ⟨q, hq, hfq⟩
    by_cases hsrc : q.1 = src
    · have := updateOneWeight_bounds q.2 c (h q hq).1
      rw [← hfq]
      simpa [hsrc] using this
    · rw [← hfq]
      simpa [hsrc] using h q hq
  · exact h

/-- `add_feedback` updates the weights table via `_update_source_weights`
and touches it nowhere else. -/
theorem addFeedback_source_weights (st : FeedbackState) (a : FeedbackArgs) :
    (addFeedback st a).source_weights =
      updateSourceWeights st.source_weights a.source a.is_correct := by
  unfold addFeedback
  repeat' split
  all_goals rfl

/-- Looking up the updated key in the mapped table. -/
theorem lookup_map_update (ws : List (String × SourceWeight)) (src : String)
    (w : SourceWeight) (c : Bool) (h : assocLookup ws src = some w) :
    assocLookup (ws.map (fun p => if p.1 = src then (p.1, updateOneWeight p.2 c) else p)) src
      = some (updateOneWeight w c) := by
  induction ws with
  | nil => simp [assocLookup] at h
  | cons p rest ih =>
    rcases p with ⟨k, v⟩
    by_cases hk : k = src
    · have hv : v = w := by
        rw [assocLookup, if_pos hk] at h
        exact Option.some_inj.1 h
      subst hv
      simp [assocLookup, hk]
    · have h2 : assocLookup rest src = some w := by
        rw [assocLookup, if_neg hk] at h
        exact h
      simpa [assocLookup, hk] using ih h2

/-- Looking up the updated source after `_update_source_weights` finds the
nudged entry. -/
theorem lookup_updateSourceWeights (ws : List (String × SourceWeight))
    (src : String) (w : SourceWeight) (c : Bool) (h : assocLookup ws src = some w) :
    assocLookup (updateSourceWeights ws src c) src = some (updateOneWeight w c) := by
  unfold updateSourceWeights
  rw [h]
  simpa using lookup_map_update ws src w c h

/-- Claim C4: starting from the default table, after any sequence of
`add_feedback` calls every source satisfies `success_count ≤ total_count`
and `base_confidence ∈ [0.4, 0.95]`; and one call on a present source
increments `total_count`, increments `success_count` exactly when correct,
and nudges `base_confidence` by `0.05 × (target − base)` with target 0.9 or
0.5, clamped to [0.4, 0.95], leaving the bonuses unchanged. -/
theorem feedback_weights_invariant (l : List FeedbackArgs) :
    WeightsInv (applyFeedbacks initialFeedbackState l).source_weights ∧
    ∀ (ws : List (String × SourceWeight)) (src : String) (w : SourceWeight)
      (c : Bool), assocLookup ws src = some w →
      assocLookup (updateSourceWeights ws src c) src = some
        { base_confidence := max (2/5) (min (19/20)
            (w.base_confidence + 1/20 * ((if c then (9 : ℚ)/10 else 1/2) - w.base_confidence)))
          bonuses := w.bonuses
          success_count := w.success_count + (if c then 1 else 0)
          total_count := w.total_count + 1 } := by
  constructor
  · have hinit : WeightsInv defaultWeights := by
      intro p hp
      fin_cases hp <;> refine ⟨le_refl _, by norm_num, by norm_num⟩
    suffices h : ∀ (l : List FeedbackArgs) (st : FeedbackState),
        WeightsInv st.source_weights →
        WeightsInv (applyFeedbacks st l).source_weights by
      exact h l initialFeedbackState hinit
    intro l
    induction l with
    | nil => intro st h; exact h
    | cons a rest ih =>
      intro st h
      refine ih (addFeedback st a) ?_
      rw [addFeedback_source_weights]
      exact weightsInv_update _ _ _ h
  · intro ws src w c h
    rw [lookup_updateSourceWeights ws src w c h]
    rfl

/-- Witness for C4: one incorrect-feedback call on `websearch`, and the
per-call effect evaluated on the default `local` entry. -/
theorem feedback_weights_invariant_witness :
    WeightsInv (applyFeedbacks initialFeedbackState
      [⟨"q", "r", false, none, "websearch", 1/2⟩]).source_weights ∧
    assocLookup (updateSourceWeights defaultWeights "local" true) "local" = some
      { base_confidence := max (2/5) (min (19/20) (3/5 + 1/20 * ((9 : ℚ)/10 - 3/5)))
        bonuses := [("bonus_math", 3/10)]
        success_count := 0 + 1
        total_count := 0 + 1 } :=
  ⟨(feedback_weights_invariant [⟨"q", "r", false, none, "websearch", 1/2⟩]).1,
   by
    have h := (feedback_weights_invariant []).2 defaultWeights "local"
      ⟨3/5, [("bonus_math", 3/10)], 0, 0⟩ true rfl
    simpa using h⟩

/-- Total user-visible feedback count in the session statistics. -/
def statSum (s : SessionStats) : ℕ :=
  s.correct + s.incorrect + s.refinements

/-- Claim C10: `add_feedback` with a source absent from the weights table
still appends the event to the feedback history and counts it in the
session statistics, but leaves the `source_weights` mapping completely
unchanged. -/
theorem unknown_source_feedback_frame (st : FeedbackState) (a : FeedbackArgs)
    (h : assocLookup st.source_weights a.source = none) :
    (addFeedback st a).source_weights = st.source_weights ∧
    (addFeedback st a).feedback_history = st.feedback_history ++
      [{ query := a.query
         response := if a.response.length > 200 then a.response.take 200 ++ "..." else a.response
         is_correct := a.is_correct
         note := a.note
         source := a.source
         confidence := a.confidence
         feedback_type := if a.is_correct && a.note.isSome then "refinement" else "correction" }] ∧
    statSum (addFeedback st a).session_stats = statSum st.session_stats + 1 := by
  have hw : updateSourceWeights st.source_weights a.source a.is_correct =
      st.source_weights := by
    unfold updateSourceWeights
    rw [h]
    rfl
  unfold addFeedback
  simp only [hw]
  cases hc : a.is_correct <;> cases hn : a.note.isSome <;>
    simp [statSum, hc, hn] <;> omega

/-- Witness for C10 on the unknown source `"oracle"`. -/
theorem unknown_source_feedback_frame_witness :
    (addFeedback initialFeedbackState ⟨"q", "r", true, none, "oracle", 1⟩).source_weights =
      initialFeedbackState.source_weights ∧
    (addFeedback initialFeedbackState ⟨"q", "r", true, none, "oracle", 1⟩).feedback_history =
      initialFeedbackState.feedback_history ++
      [{ query := "q", response := if ("r" : String).length > 200 then "r".take 200 ++ "..." else "r"
         is_correct := true, note := none, source := "oracle", confidence := 1
         feedback_type := if true && (none : Option String).isSome then "refinement" else "correction" }] ∧
    statSum (addFeedback initialFeedbackState ⟨"q", "r", true, none, "oracle", 1⟩).session_stats =
      statSum initialFeedbackState.session_stats + 1 :=
  unknown_source_feedback_frame initialFeedbackState ⟨"q", "r", true, none, "oracle", 1⟩
    (by decide)

/-- Claim C9: the bridge executes submitted code only for loopback peers
with the correct key and denylist-clean code; a non-loopback peer always
gets HTTP 403 with no child process; a denylist match on an otherwise
authorized request gets HTTP 400 before execution. -/
theorem bridge_guards (apiKey remoteAddr headerKey : String)
    (body : Option String) :
    ((handleRunRequest apiKey remoteAddr headerKey body).executed = true →
      remoteAddr ∈ loopbackPeers ∧ headerKey = apiKey ∧
      ∃ code, body = some code ∧ ∀ p ∈ dangerousPatterns, ¬ pyIn p code = true) ∧
    (remoteAddr ∉ loopbackPeers →
      handleRunRequest apiKey remoteAddr headerKey body = ⟨403, false⟩) ∧
    (∀ code p, body = some code → p ∈ dangerousPatterns → pyIn p code = true →
      remoteAddr ∈ loopbackPeers → headerKey = apiKey →
      (handleRunRequest apiKey remoteAddr headerKey body).status = 400 ∧
      (handleRunRequest apiKey remoteAddr headerKey body).executed = false) := by
  refine ⟨?_, ?_, ?_⟩
  · intro hex
    unfold handleRunRequest at hex
    by_cases hpeer : remoteAddr ∈ loopbackPeers
    · rw [if_pos hpeer] at hex
      by_cases hkey : headerKey = apiKey
      · rw [if_pos hkey] at hex
        refine ⟨hpeer, hkey, ?_⟩
        rcases body with _ | code
        · simp at hex
        · refine ⟨code, rfl, ?_⟩
          by_cases hsafe : (sanitizeCode code).1 = true
          · intro p hp
            rcases hfind : dangerousPatterns.find? (fun p => pyIn p code) with _ | q
            · simpa using List.find?_eq_none.1 hfind p hp
            · unfold sanitizeCode at hsafe
              rw [hfind] at hsafe
              simp at hsafe
          · simp [hsafe] at hex
      · rw [if_neg hkey] at hex
        simp at hex
    · rw [if_neg hpeer] at hex
      simp at hex
  · intro hpeer
    unfold handleRunRequest
    rw [if_neg hpeer]
  · intro code p hb hp hmatch hpeer hkey
    subst hb
    have hsafe : (sanitizeCode code).1 = false := by
      rcases hfind : dangerousPatterns.find? (fun p => pyIn p code) with _ | q
      · exact absurd hmatch (by simpa using List.find?_eq_none.1 hfind p hp)
      · unfold sanitizeCode
        rw [hfind]
    unfold handleRunRequest
    rw [if_pos hpeer, if_pos hkey]
    simp [hsafe]

/-- Witness for C9: a non-loopback peer gets 403, and a loopback request
carrying the denylisted `import socket` gets 400 without execution. -/
theorem bridge_guards_witness :
    handleRunRequest "localonly" "10.0.0.5" "localonly" (some "print(1)") =
      ⟨403, false⟩ ∧
    (handleRunRequest "localonly" "127.0.0.1" "localonly"
      (some "import socket\nprint(1)")).status = 400 ∧
    (handleRunRequest "localonly" "127.0.0.1" "localonly"
      (some "import socket\nprint(1)")).executed = false :=
  ⟨(bridge_guards "localonly" "10.0.0.5" "localonly" (some "print(1)")).2.1
    (by decide),
   (bridge_guards "localonly" "127.0.0.1" "localonly"
      (some "import socket\nprint(1)")).2.2 "import socket\nprint(1)"
      "import socket" rfl (by decide) (by decide) (by decide) rfl⟩

/-- Claim C2: `start_new_question(new_id)` with a different id clears the
stored calculated answer, solver solution and trace and adopts the new id —
so `get_calculated_answer()` returns nothing until the new question computes
one — while `start_new_question(same_id)` on a retry leaves the state
completely intact. -/
theorem start_new_question_boundary (s : REState) (newId : String) :
    (s.current_question_id ≠ some newId →
      startNewQuestion s newId =
        { current_trace := [], last_math_answer := none,
          last_math_solution := none, current_question_id := some newId } ∧
      getCalculatedAnswer (startNewQuestion s newId) = none) ∧
    (s.current_question_id = some newId → startNewQuestion s newId = s) := by
  constructor
  · intro h
    refine ⟨by rw [startNewQuestion, if_pos h], ?_⟩
    rw [startNewQuestion, if_pos h, getCalculatedAnswer]
  · intro h
    rw [startNewQuestion, if_neg (by simp [h])]

/-- Witness for C2: a fresh engine adopting `"q1"` (distinct id) clears the
state, and a retry of `"q1"` on a state holding a calculated answer leaves
that answer in place. -/
theorem start_new_question_boundary_witness :
    (startNewQuestion initialREState "q1" =
        { current_trace := [], last_math_answer := none,
          last_math_solution := none, current_question_id := some "q1" } ∧
      getCalculatedAnswer (startNewQuestion initialREState "q1") = none) ∧
    startNewQuestion ⟨[], some 5, none, some "q1"⟩ "q1" =
      ⟨[], some 5, none, some "q1"⟩ :=
  ⟨(start_new_question_boundary initialREState "q1").1 (by decide),
   (start_new_question_boundary ⟨[], some 5, none, some "q1"⟩ "q1").2 rfl⟩

/-- A time-sensitive classification forces `should_trigger_fallback`
(through `needs_live_data`), whatever the clock says. -/
theorem time_sensitive_forces_fallback (query : String) (postCutoff : Bool)
    (h : (detectTemporalUncertainty query postCutoff).time_sensitive = true) :
    (detectTemporalUncertainty query postCutoff).should_trigger_fallback = true := by
  simp only [detectTemporalUncertainty, classifyQueryMetadata] at h ⊢
  rw [h]
  simp

/-- Claim C3: for every prompt classified `time_sensitive = true` with no
calculated answer, the fallback cascade is invoked regardless of the gate's
verdict on the local response, and the reported confidence is the local
analysis score capped at 0.5. -/
theorem temporal_forces_cascade_and_caps_confidence
    (s : REState) (qid query : String) (postCutoff isMath : Bool)
    (det : Option MathSolution) (steps : List ReasoningStep)
    (llm : String) (cnt : ℕ) (err cq : Bool) (env : CascadeEnv)
    (hts : (detectTemporalUncertainty query postCutoff).time_sensitive = true)
    (hnocalc : (processInputCore s qid query postCutoff isMath det steps llm
      cnt err cq env).1.usedCalculatedAnswer = false) :
    (processInputCore s qid query postCutoff isMath det steps llm cnt err cq
      env).1.shouldFallback = true ∧
    (processInputCore s qid query postCutoff isMath det steps llm cnt err cq
      env).1.confidenceScore =
      min (analyzeResponse llm cnt err cq).confidence_score (1/2) := by
  have hstf := time_sensitive_forces_fallback query postCutoff hts
  simp only [processInputCore] at hnocalc ⊢
  simp only [hnocalc, Bool.false_eq_true, if_false, hstf, if_true,
    Bool.or_true, shouldTriggerFallback]
  exact ⟨trivial, trivial⟩

/-- Witness for C3 on the post-cutoff prompt
`"Who is the president of the United States right now?"`. -/
theorem temporal_forces_cascade_witness :
    (processInputCore initialREState "q3"
      "Who is the president of the United States right now?" true false none []
      "The president is X." 0 false false
      ⟨none, (false, ""), false, none⟩).1.shouldFallback = true ∧
    (processInputCore initialREState "q3"
      "Who is the president of the United States right now?" true false none []
      "The president is X." 0 false false
      ⟨none, (false, ""), false, none⟩).1.confidenceScore =
      min (analyzeResponse "The president is X." 0 false false).confidence_score
        (1/2) :=
  temporal_forces_cascade_and_caps_confidence initialREState "q3"
    "Who is the president of the United States right now?" true false none []
    "The president is X." 0 false false ⟨none, (false, ""), false, none⟩
    (by decide) (by decide)

/-- Claim C1, counterexample: on the spec's own compound-percentage
end-to-end scenario the solver returns a solution with `verified = True`
(final value `$19470`), yet the pipeline does not short-circuit: the result
is stored under `final_value`, which `_reason_math_problem` never reads, so
`get_calculated_answer()` stays `None`, the LLM and the uncertainty gate
run, and the source is `local`, not `local_calculated`. -/
theorem compound_percentage_no_short_circuit :
    (solveCompoundPercentage 15000 [(true, 18), (false, 12), (true, 25)]).verified
      = true ∧
    (solveCompoundPercentage 15000 [(true, 18), (false, 12), (true, 25)]).final_value
      = some 19470 ∧
    (processInputCore initialREState "q1"
      "$15,000 increases by 18%, then decreases by 12%, then increases by 25%. Final value and total change?"
      true true
      (some (solveCompoundPercentage 15000 [(true, 18), (false, 12), (true, 25)]))
      [] "some local answer" 0 false false
      ⟨none, (false, ""), false, none⟩).1.usedCalculatedAnswer = false ∧
    (processInputCore initialREState "q1"
      "$15,000 increases by 18%, then decreases by 12%, then increases by 25%. Final value and total change?"
      true true
      (some (solveCompoundPercentage 15000 [(true, 18), (false, 12), (true, 25)]))
      [] "some local answer" 0 false false
      ⟨none, (false, ""), false, none⟩).1.llmCalled = true ∧
    (processInputCore initialREState "q1"
      "$15,000 increases by 18%, then decreases by 12%, then increases by 25%. Final value and total change?"
      true true
      (some (solveCompoundPercentage 15000 [(true, 18), (false, 12), (true, 25)]))
      [] "some local answer" 0 false false
      ⟨none, (false, ""), false, none⟩).1.uncertaintyGateRun = true ∧
    (processInputCore initialREState "q1"
      "$15,000 increases by 18%, then decreases by 12%, then increases by 25%. Final value and total change?"
      true true
      (some (solveCompoundPercentage 15000 [(true, 18), (false, 12), (true, 25)]))
      [] "some local answer" 0 false false
      ⟨none, (false, ""), false, none⟩).1.responseSource = "local" := by
  refine ⟨rfl, ?_, ?_, ?_, ?_, ?_⟩
  · simp only [solveCompoundPercentage, pctFold]
    norm_num
  · simp [processInputCore, startNewQuestion, reasonMathProblem,
      getCalculatedAnswer, pyOrQ, truthyQ, truthyStr, solveCompoundPercentage]
  · simp [processInputCore, startNewQuestion, reasonMathProblem,
      getCalculatedAnswer, pyOrQ, truthyQ, truthyStr, solveCompoundPercentage]
  · simp [processInputCore, startNewQuestion, reasonMathProblem,
      getCalculatedAnswer, pyOrQ, truthyQ, truthyStr, solveCompoundPercentage]
  · simp [processInputCore, startNewQuestion, reasonMathProblem,
      getCalculatedAnswer, pyOrQ, truthyQ, truthyStr, solveCompoundPercentage]

/-- Claim C1, amended: the calculated-answer short-circuit fires exactly
when the reasoning state after the trace step holds a calculated answer that
renders to a non-empty string (the solver's `answer`-or-`smaller_item`
value; the `verified` flag is never consulted).  When it fires, the final
source is `local_calculated` with confidence 1.0 and neither the LLM, the
uncertainty gate, nor any fallback source is invoked; when it does not —
even for a verified solver solution whose result is stored under
`final_value` — the LLM and the uncertainty gate run. -/
theorem short_circuit_iff_calculated_answer
    (s : REState) (qid query : String) (postCutoff isMath : Bool)
    (det : Option MathSolution) (steps : List ReasoningStep)
    (llm : String) (cnt : ℕ) (err cq : Bool) (env : CascadeEnv) :
    ((processInputCore s qid query postCutoff isMath det steps llm cnt err cq
        env).1.usedCalculatedAnswer = true ↔
      ∃ ans, getCalculatedAnswer (processInputCore s qid query postCutoff
        isMath det steps llm cnt err cq env).2 = some ans ∧ ans ≠ "") ∧
    ((processInputCore s qid query postCutoff isMath det steps llm cnt err cq
        env).1.usedCalculatedAnswer = true →
      (processInputCore s qid query postCutoff isMath det steps llm cnt err cq
        env).1.responseSource = "local_calculated" ∧
      (processInputCore s qid query postCutoff isMath det steps llm cnt err cq
        env).1.confidenceScore = 1 ∧
      (processInputCore s qid query postCutoff isMath det steps llm cnt err cq
        env).1.llmCalled = false ∧
      (processInputCore s qid query postCutoff isMath det steps llm cnt err cq
        env).1.uncertaintyGateRun = false ∧
      (processInputCore s qid query postCutoff isMath det steps llm cnt err cq
        env).1.shouldFallback = false ∧
      (processInputCore s qid query postCutoff isMath det steps llm cnt err cq
        env).1.earlyUncertainReturn = false) ∧
    ((processInputCore s qid query postCutoff isMath det steps llm cnt err cq
        env).1.usedCalculatedAnswer = false →
      (processInputCore s qid query postCutoff isMath det steps llm cnt err cq
        env).1.llmCalled = true ∧
      (processInputCore s qid query postCutoff isMath det steps llm cnt err cq
        env).1.uncertaintyGateRun = true) := by
  rcases hca : getCalculatedAnswer (if isMath then
      reasonMathProblem (startNewQuestion s qid) det
    else { startNewQuestion s qid with current_trace := steps }) with _ | a
  · refine ⟨?_, ?_, ?_⟩
    · simp [processInputCore, hca, truthyStr]
    · simp [processInputCore, hca, truthyStr]
    · intro _
      simp [processInputCore, hca, truthyStr]
  · by_cases ha : a = ""
    · subst ha
      refine ⟨?_, ?_, ?_⟩
      · simp [processInputCore, hca, truthyStr]
      · simp [processInputCore, hca, truthyStr]
      · intro _
        simp [processInputCore, hca, truthyStr]
    · refine ⟨?_, ?_, ?_⟩
      · simp [processInputCore, hca, ha, truthyStr]
      · intro _
        simp [processInputCore, hca, ha, truthyStr]
      · simp [processInputCore, hca, ha, truthyStr]

/-- Witness for the amended C1: the bat-and-ball difference solution
(ball = $0.05) short-circuits with source `local_calculated`, confidence 1,
and no LLM, gate, or cascade. -/
theorem short_circuit_iff_calculated_answer_witness :
    (processInputCore initialREState "q2"
      "A bat and a ball cost 1.10 in total. The bat costs 1.00 more than the ball. How much does the ball cost?"
      false true (some (solveDifferenceProblem (11/10) 1)) [] "" 0 false false
      ⟨none, (false, ""), false, none⟩).1.responseSource = "local_calculated" ∧
    (processInputCore initialREState "q2"
      "A bat and a ball cost 1.10 in total. The bat costs 1.00 more than the ball. How much does the ball cost?"
      false true (some (solveDifferenceProblem (11/10) 1)) [] "" 0 false false
      ⟨none, (false, ""), false, none⟩).1.confidenceScore = 1 ∧
    (processInputCore initialREState "q2"
      "A bat and a ball cost 1.10 in total. The bat costs 1.00 more than the ball. How much does the ball cost?"
      false true (some (solveDifferenceProblem (11/10) 1)) [] "" 0 false false
      ⟨none, (false, ""), false, none⟩).1.llmCalled = false ∧
    (processInputCore initialREState "q2"
      "A bat and a ball cost 1.10 in total. The bat costs 1.00 more than the ball. How much does the ball cost?"
      false true (some (solveDifferenceProblem (11/10) 1)) [] "" 0 false false
      ⟨none, (false, ""), false, none⟩).1.uncertaintyGateRun = false ∧
    (processInputCore initialREState "q2"
      "A bat and a ball cost 1.10 in total. The bat costs 1.00 more than the ball. How much does the ball cost?"
      false true (some (solveDifferenceProblem (11/10) 1)) [] "" 0 false false
      ⟨none, (false, ""), false, none⟩).1.shouldFallback = false ∧
    (processInputCore initialREState "q2"
      "A bat and a ball cost 1.10 in total. The bat costs 1.00 more than the ball. How much does the ball cost?"
      false true (some (solveDifferenceProblem (11/10) 1)) [] "" 0 false false
      ⟨none, (false, ""), false, none⟩).1.earlyUncertainReturn = false :=
  (short_circuit_iff_calculated_answer initialREState "q2"
    "A bat and a ball cost 1.10 in total. The bat costs 1.00 more than the ball. How much does the ball cost?"
    false true (some (solveDifferenceProblem (11/10) 1)) [] "" 0 false false
    ⟨none, (false, ""), false, none⟩).2.1
    (by
      simp [processInputCore, startNewQuestion, reasonMathProblem,
        getCalculatedAnswer, pyOrQ, truthyQ, solveDifferenceProblem,
        dollarStr_ne_empty])

/-- Reading a freshly written cache entry within the TTL returns it without
eviction. -/
theorem cacheGet_cacheSet (c : SearchCache) (q : String) (e : CacheEntry)
    (now ttl : ℚ) (h : ¬ ttl < now - e.mtime) :
    cacheGet (cacheSet c q e) q now ttl = (some e, cacheSet c q e) := by
  simp only [cacheGet, cacheSet, assocLookup]
  rw [if_pos trivial]
  dsimp only
  rw [if_neg h]

/-- Claim C7, amended: with `use_cache = true`, if the first call's
synthesized confidence reached `min_confidence` (so the result was cached)
and the first call found the cache empty for this query, then a second
identical query within the TTL returns the byte-identical stored answer and
confidence — whatever the live sources would have answered — and issues
zero outbound requests. -/
theorem cached_query_repeat_identical (c1 : SearchCache) (q : String)
    (t1 t2 ttl minConf : ℚ)
    (out1 out2 : List (String × Bool × List SearchResult))
    (hmiss : assocLookup c1 q = none)
    (hsucc : (webSearch c1 q true t1 ttl minConf out1).1.1 = true)
    (hconf : minConf ≤ (webSearch c1 q true t1 ttl minConf out1).1.2.2)
    (hfresh : t2 - t1 ≤ ttl) :
    webSearch (webSearch c1 q true t1 ttl minConf out1).2.1 q true t2 ttl
        minConf out2 =
      ((true, (webSearch c1 q true t1 ttl minConf out1).1.2.1,
        (webSearch c1 q true t1 ttl minConf out1).1.2.2),
       (webSearch c1 q true t1 ttl minConf out1).2.1, 0) := by
  have h1 : webSearch c1 q true t1 ttl minConf out1 =
      webSearchRun c1 q t1 minConf out1 := by
    simp [webSearch, cacheGet, hmiss]
  rw [h1] at hsucc hconf ⊢
  simp only [webSearchRun] at hsucc hconf ⊢
  rcases hcol : collectResults out1 with ⟨allResults, srcs⟩
  rw [hcol] at hsucc hconf
  dsimp only at hsucc hconf ⊢
  by_cases hemp : allResults = []
  · rw [if_pos hemp] at hsucc
    simp at hsucc
  · rw [if_neg hemp] at hsucc hconf ⊢
    dsimp only at hconf ⊢
    rw [if_pos hconf]
    have hget2 := cacheGet_cacheSet c1 q
      ⟨(synthesizeResults allResults srcs).1, (synthesizeResults allResults srcs).2,
       srcs, t1⟩ t2 ttl (by dsimp only; exact not_lt.2 (by linarith))
    simp only [webSearch, hget2, if_true]

/-- The source outcomes of the C7 counterexample run: one source succeeds
with a single result, the other two fail. -/
def cexOutcomes : List (String × Bool × List SearchResult) :=
  [("DuckDuckGo", true, [⟨"Result title", "u.example", "a snippet", "DuckDuckGo"⟩]),
   ("Wikipedia", false, []),
   ("ArXiv", false, [])]

/-- Claim C7, counterexample: a first search that succeeds with confidence
`min(1, 1/10) × min(1, 1/3) = 1/30 < 0.7` caches nothing, so an identical
second query within the TTL is not served from the cache: it issues 3
outbound source requests, not zero. -/
theorem low_confidence_not_cached_second_call_outbound :
    (webSearch [] "q" true 0 900 (7/10) cexOutcomes).1.1 = true ∧
    (webSearch [] "q" true 0 900 (7/10) cexOutcomes).1.2.2 = 1/30 ∧
    (webSearch [] "q" true 0 900 (7/10) cexOutcomes).2.1 = [] ∧
    (webSearch (webSearch [] "q" true 0 900 (7/10) cexOutcomes).2.1 "q" true
      60 900 (7/10) cexOutcomes).2.2 = 3 ∧ (3 : ℕ) ≠ 0 := by
  have hcol : collectResults cexOutcomes =
      ([⟨"Result title", "u.example", "a snippet", "DuckDuckGo"⟩], ["DuckDuckGo"]) := by
    decide
  have hconf : (synthesizeResults
      [⟨"Result title", "u.example", "a snippet", "DuckDuckGo"⟩]
      ["DuckDuckGo"]).2 = 1/30 := by
    simp only [synthesizeResults]
    rw [if_neg (show ¬ ([⟨"Result title", "u.example", "a snippet", "DuckDuckGo"⟩]
      : List SearchResult) = [] from by decide)]
    norm_num [min_def]
  have hfirst : webSearch [] "q" true 0 900 (7/10) cexOutcomes =
      ((true, (synthesizeResults
          [⟨"Result title", "u.example", "a snippet", "DuckDuckGo"⟩]
          ["DuckDuckGo"]).1, 1/30), [], 3) := by
    simp only [webSearch, cacheGet, assocLookup, webSearchRun, hcol]
    rw [if_neg (show ¬ ([⟨"Result title", "u.example", "a snippet", "DuckDuckGo"⟩]
      : List SearchResult) = [] from by decide)]
    have hlow : ¬ (7 : ℚ)/10 ≤ (synthesizeResults
        [⟨"Result title", "u.example", "a snippet", "DuckDuckGo"⟩]
        ["DuckDuckGo"]).2 := by
      rw [hconf]; norm_num
    rw [if_neg hlow]
    simp [hconf, cexOutcomes]
  refine ⟨by rw [hfirst], by rw [hfirst], by rw [hfirst], ?_, by decide⟩
  rw [hfirst]
  simp only [webSearch, cacheGet, assocLookup, webSearchRun, hcol]
  rw [if_neg (show ¬ ([⟨"Result title", "u.example", "a snippet", "DuckDuckGo"⟩]
    : List SearchResult) = [] from by decide)]
  simp [cexOutcomes]

/-- The source outcomes of the C7 witness run: all three sources succeed,
seven results in total, so the synthesized confidence is
`min(1, 7/10) × min(1, 3/3) = 0.7`. -/
def richOutcomes : List (String × Bool × List SearchResult) :=
  [("DuckDuckGo", true,
    [⟨"d1", "du1", "", "DuckDuckGo"⟩, ⟨"d2", "du2", "", "DuckDuckGo"⟩,
     ⟨"d3", "du3", "", "DuckDuckGo"⟩]),
   ("Wikipedia", true,
    [⟨"w1", "wu1", "", "Wikipedia"⟩, ⟨"w2", "wu2", "", "Wikipedia"⟩]),
   ("ArXiv", true,
    [⟨"a1", "au1", "", "ArXiv"⟩, ⟨"a2", "au2", "", "ArXiv"⟩])]

/-- Witness for the amended C7: a confidence-0.7 first search is cached, and
the identical query 60 seconds later returns the identical answer and
confidence from the cache with zero outbound requests, whatever the live
sources would say (here: none at all). -/
theorem cached_query_repeat_identical_witness :
    webSearch (webSearch [] "q" true 0 900 (7/10) richOutcomes).2.1 "q" true 60
        900 (7/10) [] =
      ((true, (webSearch [] "q" true 0 900 (7/10) richOutcomes).1.2.1,
        (webSearch [] "q" true 0 900 (7/10) richOutcomes).1.2.2),
       (webSearch [] "q" true 0 900 (7/10) richOutcomes).2.1, 0) :=
  cached_query_repeat_identical [] "q" 0 60 900 (7/10) richOutcomes [] rfl rfl
    (by
      have hcol : collectResults richOutcomes =
          ([⟨"d1", "du1", "", "DuckDuckGo"⟩, ⟨"d2", "du2", "", "DuckDuckGo"⟩,
            ⟨"d3", "du3", "", "DuckDuckGo"⟩, ⟨"w1", "wu1", "", "Wikipedia"⟩,
            ⟨"w2", "wu2", "", "Wikipedia"⟩, ⟨"a1", "au1", "", "ArXiv"⟩,
            ⟨"a2", "au2", "", "ArXiv"⟩],
           ["DuckDuckGo", "Wikipedia", "ArXiv"]) := by decide
      simp only [webSearch, cacheGet, assocLookup, webSearchRun, hcol]
      rw [if_neg (show ¬ ([⟨"d1", "du1", "", "DuckDuckGo"⟩,
        ⟨"d2", "du2", "", "DuckDuckGo"⟩, ⟨"d3", "du3", "", "DuckDuckGo"⟩,
        ⟨"w1", "wu1", "", "Wikipedia"⟩, ⟨"w2", "wu2", "", "Wikipedia"⟩,
        ⟨"a1", "au1", "", "ArXiv"⟩, ⟨"a2", "au2", "", "ArXiv"⟩]
        : List SearchResult) = [] from by decide)]
      simp only [synthesizeResults]
      rw [if_neg (show ¬ ([⟨"d1", "du1", "", "DuckDuckGo"⟩,
        ⟨"d2", "du2", "", "DuckDuckGo"⟩, ⟨"d3", "du3", "", "DuckDuckGo"⟩,
        ⟨"w1", "wu1", "", "Wikipedia"⟩, ⟨"w2", "wu2", "", "Wikipedia"⟩,
        ⟨"a1", "au1", "", "ArXiv"⟩, ⟨"a2", "au2", "", "ArXiv"⟩]
        : List SearchResult) = [] from by decide)]
      norm_num [min_def])
    (by norm_num)

instance (cfg : MemoryConfig) (now : ℤ) : IsTotal Conv (scoreGE cfg now) :=
  ⟨fun a b => le_total (convScore cfg.max_age_days now b) (convScore cfg.max_age_days now a)⟩

instance (cfg : MemoryConfig) (now : ℤ) : IsTrans Conv (scoreGE cfg now) :=
  ⟨fun _ _ _ hab hbc => le_trans hbc hab⟩

/-- Claim C8: auto-pruning fires exactly at the prune threshold and keeps at
most `int(max_conversations × 0.7)` conversations — precisely the
top-scoring ones (every kept conversation scores at least every dropped
one, and kept plus dropped is a permutation of the pool) — and pruning is
idempotent: pruning an already-pruned pool with no intervening writes is a
no-op. -/
theorem prune_keeps_top_seventy_idempotent (cfg : MemoryConfig) (now : ℤ)
    (l : List Conv) :
    (pruneConversations cfg now l).length ≤ 7 * cfg.max_conversations / 10 ∧
    (cfg.prune_threshold * cfg.max_conversations ≤ (l.length : ℚ) →
      autoPrune cfg now l = pruneConversations cfg now l) ∧
    (∀ x ∈ pruneConversations cfg now l,
      ∀ y ∈ (l.insertionSort (scoreGE cfg now)).drop (7 * cfg.max_conversations / 10),
        convScore cfg.max_age_days now y ≤ convScore cfg.max_age_days now x) ∧
    List.Perm (pruneConversations cfg now l ++
      (l.insertionSort (scoreGE cfg now)).drop (7 * cfg.max_conversations / 10)) l ∧
    pruneConversations cfg now (pruneConversations cfg now l) =
      pruneConversations cfg now l := by
  have hsorted : List.Sorted (scoreGE cfg now) (l.insertionSort (scoreGE cfg now)) :=
    List.sorted_insertionSort _ _
  refine ⟨?_, ?_, ?_, ?_, ?_⟩
  · unfold pruneConversations
    rw [List.length_take]
    exact min_le_left _ _
  · intro h
    unfold autoPrune
    rw [if_pos h]
  · intro x hx y hy
    have h2 : List.Pairwise (scoreGE cfg now)
        ((l.insertionSort (scoreGE cfg now)).take (7 * cfg.max_conversations / 10) ++
         (l.insertionSort (scoreGE cfg now)).drop (7 * cfg.max_conversations / 10)) := by
      rw [List.take_append_drop]
      exact hsorted
    exact (List.pairwise_append.1 h2).2.2 x hx y hy
  · unfold pruneConversations
    rw [List.take_append_drop]
    exact List.perm_insertionSort _ _
  · unfold pruneConversations
    have hsp : List.Sorted (scoreGE cfg now)
        ((l.insertionSort (scoreGE cfg now)).take (7 * cfg.max_conversations / 10)) :=
      List.Pairwise.sublist (List.take_sublist _ _) hsorted
    rw [List.Sorted.insertionSort_eq hsp, List.take_take, min_self]

/-- Witness for C8: a pool of 8 identical conversations at capacity 10 and
threshold 0.8 triggers pruning down to 7, and a second prune is a no-op. -/
theorem prune_keeps_top_seventy_idempotent_witness :
    autoPrune ⟨10, 90, 4/5⟩ 0 (List.replicate 8 ⟨0, 0, false, false, false⟩) =
      pruneConversations ⟨10, 90, 4/5⟩ 0
        (List.replicate 8 ⟨0, 0, false, false, false⟩) ∧
    pruneConversations ⟨10, 90, 4/5⟩ 0
        (pruneConversations ⟨10, 90, 4/5⟩ 0
          (List.replicate 8 ⟨0, 0, false, false, false⟩)) =
      pruneConversations ⟨10, 90, 4/5⟩ 0
        (List.replicate 8 ⟨0, 0, false, false, false⟩) :=
  ⟨(prune_keeps_top_seventy_idempotent ⟨10, 90, 4/5⟩ 0
      (List.replicate 8 ⟨0, 0, false, false, false⟩)).2.1
      (by norm_num [List.length_replicate]),
   (prune_keeps_top_seventy_idempotent ⟨10, 90, 4/5⟩ 0
      (List.replicate 8 ⟨0, 0, false, false, false⟩)).2.2.2.2⟩

end Genesis
